import Mathlib

/-!
Shallow embedding of the Jellron keypoint aggregation and geometric
derivation engine: `Keypoint` (src/unnamed/part_004), the current `Mesh`
(the middle variant of src/js/mesh.js, with persistent anchor keypoints),
the offsets variant of `Mesh` (src/unnamed/part_013), and the hand
detector's relabeling step (src/js/detector/hand_detector.js).

Conventions of the embedding:
* JS numbers are modelled as rationals (`ℚ`); the formulas at stake are
  exact ratios of small integers, and no claim hinges on binary
  floating-point rounding.
* A JS object property that can be absent (`hasOwnProperty` false) or
  `null` is modelled as an `Option`.
* Methods that mutate `this` become state-passing functions
  `Mesh → ... → Mesh` or `Mesh → Mesh × result`.
* A code path that would raise a `TypeError` (indexing past the end of a
  keypoint collection) makes the ingestion function return `none`.
* Keypoint rotations are stored in degrees: the source stores
  `degreesToRadians d` on the attached three.js mesh, a fixed injective
  linear map, so equalities between rotations are unaffected.
-/

namespace Jellron

/-- Raw per-frame landmark entry as supplied by a detection provider.
Fields that a provider may omit are `Option`s; `none` models an absent
property. -/
structure RawKeypoint where
  x : Option ℚ
  y : Option ℚ
  z : Option ℚ
  score : Option ℚ
  name : Option String
deriving DecidableEq

/-- Raw body/face payload `{ keypoints: [...] }`; the `keypoints` property
itself may be absent. -/
structure RawFrame where
  keypoints : Option (List RawKeypoint)
deriving DecidableEq

/-- Raw hand payload entry: a handedness tag ("Left"/"Right") plus the
contained points. -/
structure RawHand where
  handedness : String
  keypoints : List RawKeypoint
deriving DecidableEq

/-- Keypoint (src/unnamed/part_004). `displayingAsset` models
`this.mesh.material.map != null`; `assetWidth`/`assetHeight` are `0` until
an asset is attached (the source keeps `null` there, and only reads them
when `displayingAsset` is true). Rotations are in degrees (see the file
header). -/
structure Keypoint where
  x : ℚ
  y : ℚ
  z : ℚ
  confidence : ℚ
  label : Option String
  colour : String
  width : ℚ
  height : ℚ
  scaleX : ℚ
  scaleY : ℚ
  scaleZ : ℚ
  rotX : ℚ
  rotY : ℚ
  rotZ : ℚ
  assetWidth : ℚ
  assetHeight : ℚ
  displayingAsset : Bool
deriving DecidableEq

/-- The `new Keypoint(x, y, z, confidence, label)` constructor: default
colour, default size 5, unit scale, zero rotation, no asset. -/
def mkKeypoint (x y z confidence : ℚ) (label : Option String) : Keypoint :=
  { x := x, y := y, z := z, confidence := confidence, label := label
    colour := "#FFFFFF", width := 5, height := 5
    scaleX := 1, scaleY := 1, scaleZ := 1
    rotX := 0, rotY := 0, rotZ := 0
    assetWidth := 0, assetHeight := 0, displayingAsset := false }

def Keypoint.setConfidence (k : Keypoint) (c : ℚ) : Keypoint :=
  { k with confidence := c }

def Keypoint.setLabel (k : Keypoint) (l : Option String) : Keypoint :=
  { k with label := l }

def Keypoint.setColour (k : Keypoint) (c : String) : Keypoint :=
  { k with colour := c }

def Keypoint.setX (k : Keypoint) (x : ℚ) : Keypoint := { k with x := x }

def Keypoint.setY (k : Keypoint) (y : ℚ) : Keypoint := { k with y := y }

def Keypoint.setZ (k : Keypoint) (z : ℚ) : Keypoint := { k with z := z }

/-- Source `setPosition(x, y, z)` delegates to the per-axis setters. -/
def Keypoint.setPosition (k : Keypoint) (x y z : ℚ) : Keypoint :=
  ((k.setX x).setY y).setZ z

/-- Source `translatePosition(x, y, z)`. -/
def Keypoint.translatePosition (k : Keypoint) (x y z : ℚ) : Keypoint :=
  ((k.setX (k.x + x)).setY (k.y + y)).setZ (k.z + z)

/-- Source `scalePosition(x, y, z)`. -/
def Keypoint.scalePosition (k : Keypoint) (x y z : ℚ) : Keypoint :=
  ((k.setX (k.x * x)).setY (k.y * y)).setZ (k.z * z)

def Keypoint.setScale (k : Keypoint) (x y z : ℚ) : Keypoint :=
  { k with scaleX := x, scaleY := y, scaleZ := z }

def Keypoint.setRotationY (k : Keypoint) (y : ℚ) : Keypoint :=
  { k with rotY := y }

def Keypoint.setRotationZ (k : Keypoint) (z : ℚ) : Keypoint :=
  { k with rotZ := z }

def Keypoint.setWidth (k : Keypoint) (w : ℚ) : Keypoint := { k with width := w }

def Keypoint.setHeight (k : Keypoint) (h : ℚ) : Keypoint := { k with height := h }

/-- Source `setSize(size)` sets both height and width. -/
def Keypoint.setSize (k : Keypoint) (s : ℚ) : Keypoint :=
  (k.setHeight s).setWidth s

/-- Source `getWidth()` returns the width with the mesh scale applied. -/
def Keypoint.getWidth (k : Keypoint) : ℚ := k.width * k.scaleX

/-- Source `getHeight()` returns the height with the mesh scale applied. -/
def Keypoint.getHeight (k : Keypoint) : ℚ := k.height * k.scaleY

/-- Source `copyRawKeypoint(rawKeypoint)`: confidence defaults to `1` when the raw
entry carries no `score` property, label to `""`, coordinates to `0`. -/
def Keypoint.copyRawKeypoint (k : Keypoint) (r : RawKeypoint) : Keypoint :=
  ((((k.setConfidence (r.score.getD 1)).setLabel
      (some (r.name.getD ""))).setX (r.x.getD 0)).setY (r.y.getD 0)).setZ (r.z.getD 0)

/-- The confidence-zeroing loop run on an existing collection when a payload
is absent or empty. -/
def zeroConfidences (l : List Keypoint) : List Keypoint :=
  l.map fun k => k.setConfidence 0

/-- The per-index copy loop `stored[i].copyRawKeypoint(raw[i])` for
`i < raw.length`. Callers guard `raw.length ≤ stored.length`, so the
`[], _ :: _` case is never reached through them. -/
def copyInto : List Keypoint → List RawKeypoint → List Keypoint
  | [], _ => []
  | k :: ks, [] => k :: ks
  | k :: ks, r :: rs => k.copyRawKeypoint r :: copyInto ks rs

/-- Mesh state: the current variant of src/js/mesh.js (the one with
persistent anchor Keypoints created in the constructor). -/
structure Mesh where
  bodyKeypoints : List Keypoint
  chokerKeypoint : Keypoint
  earlobeKeypoints : Keypoint × Keypoint
  faceKeypoints : List Keypoint
  handKeypoints : List Keypoint
  necklaceKeypoint : Keypoint
deriving DecidableEq

/-- The `Mesh` constructor. -/
def Mesh.new : Mesh :=
  { bodyKeypoints := []
    chokerKeypoint := mkKeypoint 0 0 0 0 (some "choker")
    earlobeKeypoints :=
      (mkKeypoint 0 0 0 0 (some "left_earlobe"), mkKeypoint 0 0 0 0 (some "right_earlobe"))
    faceKeypoints := []
    handKeypoints := []
    necklaceKeypoint := mkKeypoint 0 0 0 0 (some "necklace") }

/-- The raw-label fallthrough of `getKeypointByLabel`: a linear scan of the
face Keypoints then the body Keypoints for the first label match. The
reserved labels ("choker", "left_earlobe", "right_earlobe", "necklace")
dispatch to the anchor accessors before this scan ever runs; inside the
anchor derivations every looked-up label is raw except the "necklace"
lookup in `getChokerKeypoint`, whose dispatch to `getNecklaceKeypoint` is
inlined at its use site below. -/
def Mesh.findKeypointByLabel (m : Mesh) (label : String) : Option Keypoint :=
  match m.faceKeypoints.find? (fun k => decide (k.label = some label)) with
  | some k => some k
  | none => m.bodyKeypoints.find? (fun k => decide (k.label = some label))

/-- Source `updateFaceKeypoints(rawFace)`: absent/empty payload zeroes all stored
confidences; otherwise the collection is allocated on first use (one
default Keypoint per raw entry, face colour, size 3) and each raw entry is
copied into the stored Keypoint at the same index. The source's
`rawFace.length === 0` test compares an absent property with `0` and is
always false for object payloads, so it is not modelled. -/
def Mesh.updateFaceKeypoints (m : Mesh) (rawFace : Option RawFrame) : Option Mesh :=
  match rawFace with
  | none => some { m with faceKeypoints := zeroConfidences m.faceKeypoints }
  | some f =>
    match f.keypoints with
    | none => some { m with faceKeypoints := zeroConfidences m.faceKeypoints }
    | some raw =>
      if raw.isEmpty then
        some { m with faceKeypoints := zeroConfidences m.faceKeypoints }
      else
        let stored := if m.faceKeypoints.isEmpty
          then List.replicate raw.length
            (((mkKeypoint 0 0 0 0 (some "")).setColour "green").setSize 3)
          else m.faceKeypoints
        if raw.length ≤ stored.length then
          some { m with faceKeypoints := copyInto stored raw }
        else none

/-- Source `updateBodyKeypoints(rawBody)`: same shape as the face ingestion, with
the body colour and the default Keypoint size. -/
def Mesh.updateBodyKeypoints (m : Mesh) (rawBody : Option RawFrame) : Option Mesh :=
  match rawBody with
  | none => some { m with bodyKeypoints := zeroConfidences m.bodyKeypoints }
  | some f =>
    match f.keypoints with
    | none => some { m with bodyKeypoints := zeroConfidences m.bodyKeypoints }
    | some raw =>
      if raw.isEmpty then
        some { m with bodyKeypoints := zeroConfidences m.bodyKeypoints }
      else
        let stored := if m.bodyKeypoints.isEmpty
          then List.replicate raw.length ((mkKeypoint 0 0 0 0 (some "")).setColour "magenta")
          else m.bodyKeypoints
        if raw.length ≤ stored.length then
          some { m with bodyKeypoints := copyInto stored raw }
        else none

/-- The hand copy loop: for each raw hand in order, copy its points into
the stored collection starting at index 0 (the source's inner loop index
`i` is not offset by the preceding hands' lengths). -/
def copyHands (stored : List Keypoint) : List RawHand → Option (List Keypoint)
  | [] => some stored
  | h :: rest =>
    if h.keypoints.length ≤ stored.length then
      copyHands (copyInto stored h.keypoints) rest
    else none

/-- Source `updateHandKeypoints(rawHands)`: an empty payload zeroes all stored
confidences; on first use one Keypoint is allocated per contained point
over all hands; then each hand's points are copied through `copyHands`. -/
def Mesh.updateHandKeypoints (m : Mesh) (rawHands : List RawHand) : Option Mesh :=
  if rawHands.isEmpty then
    some { m with handKeypoints := zeroConfidences m.handKeypoints }
  else
    let stored := if m.handKeypoints.isEmpty
      then List.replicate ((rawHands.map fun h => h.keypoints.length).sum)
        ((mkKeypoint 0 0 0 0 (some "")).setColour "orange")
      else m.handKeypoints
    (copyHands stored rawHands).map fun ks => { m with handKeypoints := ks }

/-- The five dependencies of `getNecklaceKeypoint`, in lookup order. -/
structure NecklaceDeps where
  leftEdgeFace : Keypoint
  rightEdgeFace : Keypoint
  leftShoulder : Keypoint
  rightShoulder : Keypoint
  bottomEdgeFace : Keypoint
deriving DecidableEq

/-- Looks up the necklace dependencies. The source checks each one in turn
and returns the confidence-0 anchor at the first missing one; since every
early return yields the same state and value, the checks are bundled into
one `Option`. -/
def Mesh.necklaceDeps (m : Mesh) : Option NecklaceDeps := do
  let le ← m.findKeypointByLabel "left_edge_face"
  let re ← m.findKeypointByLabel "right_edge_face"
  let ls ← m.findKeypointByLabel "left_shoulder"
  let rs ← m.findKeypointByLabel "right_shoulder"
  let be ← m.findKeypointByLabel "bottom_edge_face"
  pure ⟨le, re, ls, rs, be⟩

/-- Source `getNecklaceKeypoint()`: drives the persistent anchor's confidence to 0,
returns it as is if a dependency is missing, and otherwise recomputes
scale (only with an attached asset), rotation, position and confidence. -/
def Mesh.getNecklaceKeypoint (m : Mesh) : Mesh × Keypoint :=
  let m1 : Mesh := { m with necklaceKeypoint := m.necklaceKeypoint.setConfidence 0 }
  match m1.necklaceDeps with
  | none => (m1, m1.necklaceKeypoint)
  | some d =>
    let nk := m1.necklaceKeypoint
    let nk := if nk.displayingAsset then
        let width := |d.leftShoulder.x - d.rightShoulder.x| / 2
        let height := width / (nk.assetWidth / nk.assetHeight)
        nk.setScale (width / nk.assetWidth) (height / nk.assetHeight) 1
      else nk
    let nk := nk.setRotationY (-((d.rightEdgeFace.z - d.leftEdgeFace.z) / 3))
    let nk := nk.setRotationZ ((d.rightShoulder.y - d.leftShoulder.y) / 5)
    let x := (d.leftShoulder.x + d.rightShoulder.x) / 2
    let y0 := (d.leftShoulder.y + d.rightShoulder.y) / 2
    let y := y0 + (d.bottomEdgeFace.y - y0) / 3
    let z := (d.leftShoulder.z + d.rightShoulder.z) / 2
    let nk := ((nk.setConfidence 1).setPosition x y z).setColour "red"
    ({ m1 with necklaceKeypoint := nk }, nk)

/-- Source `getChokerKeypoint()`: drives the persistent anchor's confidence to 0,
returns it as is if the "nose" lookup fails, and otherwise recomputes the
position from the nose and the (freshly recomputed) necklace anchor. The
source's `getKeypointByLabel("necklace")` dispatches to
`getNecklaceKeypoint()`, which always returns the persistent necklace
anchor, so its null check never fires and is not modelled. -/
def Mesh.getChokerKeypoint (m : Mesh) : Mesh × Keypoint :=
  let m1 : Mesh := { m with chokerKeypoint := m.chokerKeypoint.setConfidence 0 }
  match m1.findKeypointByLabel "nose" with
  | none => (m1, m1.chokerKeypoint)
  | some nose =>
    let p := m1.getNecklaceKeypoint
    let necklace := p.2
    let x := necklace.x + (nose.x - necklace.x) / 3
    let y := necklace.y + (nose.y - necklace.y) / 3
    let z := necklace.z + (nose.z + necklace.z) / 2
    let ck := ((p.1.chokerKeypoint.setConfidence 1).setPosition x y z).setColour "blue"
    ({ p.1 with chokerKeypoint := ck }, ck)

/-- The sixteen dependencies of `getEarlobeKeypoints`, in lookup order:
eight labelled Keypoints, then the face Keypoints at the eight fixed
indices 93, 132, 137, 177, 323, 361, 366, 401. -/
structure EarlobeDeps where
  leftEar : Keypoint
  rightEar : Keypoint
  leftEdgeFace : Keypoint
  rightEdgeFace : Keypoint
  topEdgeFace : Keypoint
  bottomEdgeFace : Keypoint
  leftShoulder : Keypoint
  rightShoulder : Keypoint
  k93 : Keypoint
  k132 : Keypoint
  k137 : Keypoint
  k177 : Keypoint
  k323 : Keypoint
  k361 : Keypoint
  k366 : Keypoint
  k401 : Keypoint
deriving DecidableEq

/-- Looks up the earlobe dependencies; as with the necklace, the source's
sequence of identical early returns is bundled into one `Option`. -/
def Mesh.earlobeDeps (m : Mesh) : Option EarlobeDeps := do
  let lear ← m.findKeypointByLabel "left_ear"
  let rear ← m.findKeypointByLabel "right_ear"
  let le ← m.findKeypointByLabel "left_edge_face"
  let re ← m.findKeypointByLabel "right_edge_face"
  let te ← m.findKeypointByLabel "top_edge_face"
  let be ← m.findKeypointByLabel "bottom_edge_face"
  let ls ← m.findKeypointByLabel "left_shoulder"
  let rs ← m.findKeypointByLabel "right_shoulder"
  let k93 ← m.faceKeypoints[93]?
  let k132 ← m.faceKeypoints[132]?
  let k137 ← m.faceKeypoints[137]?
  let k177 ← m.faceKeypoints[177]?
  let k323 ← m.faceKeypoints[323]?
  let k361 ← m.faceKeypoints[361]?
  let k366 ← m.faceKeypoints[366]?
  let k401 ← m.faceKeypoints[401]?
  pure ⟨lear, rear, le, re, te, be, ls, rs, k93, k132, k137, k177, k323, k361, k366, k401⟩

/-- The per-earlobe asset scaling step (shoulder width / 25 as target width,
height from the asset's aspect ratio). -/
def scaleEarlobe (ls rs : Keypoint) (ek : Keypoint) : Keypoint :=
  if ek.displayingAsset then
    let width := |ls.x - rs.x| / 25
    let height := width / (ek.assetWidth / ek.assetHeight)
    ek.setScale (width / ek.assetWidth) (height / ek.assetHeight) 1
  else ek

/-- Source `getEarlobeKeypoints()`: drives both persistent earlobe anchors'
confidences to 0, returns them as is if any dependency is missing, and
otherwise recomputes scale, position and confidence; the confidence of the
earlobe opposite to a left/right head rotation beyond the threshold 40 is
forced to 0. The source also computes `isRotatedUp`/`isRotatedDown`
(`topEdgeFace.z > 8`, `bottomEdgeFace.z > 8`) but never uses them in this
variant, so they are omitted. -/
def Mesh.getEarlobeKeypoints (m : Mesh) : Mesh × (Keypoint × Keypoint) :=
  let m1 : Mesh :=
    { m with earlobeKeypoints :=
        (m.earlobeKeypoints.1.setConfidence 0, m.earlobeKeypoints.2.setConfidence 0) }
  match m1.earlobeDeps with
  | none => (m1, m1.earlobeKeypoints)
  | some d =>
    let e0 := scaleEarlobe d.leftShoulder d.rightShoulder m1.earlobeKeypoints.1
    let e1 := scaleEarlobe d.leftShoulder d.rightShoulder m1.earlobeKeypoints.2
    let isRotatedLeft := d.rightEdgeFace.z - d.leftEdgeFace.z > 40
    let isRotatedRight := d.leftEdgeFace.z - d.rightEdgeFace.z > 40
    let leftEarlobeX :=
      ((d.k323.x + |d.k366.x - d.k323.x|) + (d.k361.x + |d.k401.x - d.k361.x|)) / 2
        - e0.getWidth / 2
    let rightEarlobeX :=
      ((d.k132.x - |d.k132.x - d.k177.x|) + (d.k93.x - |d.k93.x - d.k137.x|)) / 2
        + e1.getWidth / 2
    let leftEarlobeY :=
      ((d.k323.y + |d.k366.y - d.k323.y|) + (d.k361.y + |d.k401.y - d.k361.y|)) / 2
        + e0.getHeight / 2
    let rightEarlobeY :=
      ((d.k132.y - |d.k132.y - d.k177.y|) + (d.k93.y - |d.k93.y - d.k137.y|)) / 2
        + e1.getHeight / 2
    let e0 := ((e0.setConfidence (if isRotatedRight then 0 else 1)).setPosition
      leftEarlobeX leftEarlobeY d.leftEar.z).setColour "yellow"
    let e1 := ((e1.setConfidence (if isRotatedLeft then 0 else 1)).setPosition
      rightEarlobeX rightEarlobeY d.rightEar.z).setColour "yellow"
    ({ m1 with earlobeKeypoints := (e0, e1) }, (e0, e1))

/-- Source `toLowerCase`, modelled as the character-wise lowercase map (the ASCII
handedness tags "Left"/"Right" are the only inputs it sees). -/
def lowercase (s : String) : String := ⟨s.data.map Char.toLower⟩

/-- Source `HandDetector.relabelKeypoint(rawHand, rawKeypoint)`: prefixes the point
name with the lowercased handedness. A JS template literal renders an
absent name as the string "undefined". -/
def relabelKeypoint (rawHand : RawHand) (rawKeypoint : RawKeypoint) : RawKeypoint :=
  { rawKeypoint with
      name := some (lowercase rawHand.handedness ++ "_"
        ++ (match rawKeypoint.name with | some n => n | none => "undefined")) }

/-- One tick of `HandDetector.start`: when no hands were detected the tick
returns without touching the Mesh; otherwise every point of every hand is
relabelled and the result is ingested. -/
def handDetectorTick (m : Mesh) (rawHands : List RawHand) : Option Mesh :=
  if rawHands.isEmpty then some m
  else
    m.updateHandKeypoints
      (rawHands.map fun h => { h with keypoints := h.keypoints.map (relabelKeypoint h) })

namespace Offsets

/-- Mesh state of the offsets variant (src/unnamed/part_013): persistent
anchors plus per-anchor calibration offset triples, a body scale triple and
the label cache `this.labels` used by `getKeypointLabels` (absent until the
first computation). -/
structure Mesh where
  bodyKeypoints : List Keypoint
  chokerKeypoint : Keypoint
  earlobeKeypoints : Keypoint × Keypoint
  faceKeypoints : List Keypoint
  handKeypoints : List Keypoint
  necklaceKeypoint : Keypoint
  bodyScale : ℚ × ℚ × ℚ
  chokerOffsets : ℚ × ℚ × ℚ
  leftEarlobeOffsets : ℚ × ℚ × ℚ
  necklaceOffsets : ℚ × ℚ × ℚ
  rightEarlobeOffsets : ℚ × ℚ × ℚ
  labels : Option (List (Option String))
deriving DecidableEq

/-- The constructor of the offsets variant. -/
def Mesh.new : Mesh :=
  { bodyKeypoints := []
    chokerKeypoint := mkKeypoint 0 0 0 0 (some "choker")
    earlobeKeypoints :=
      (mkKeypoint 0 0 0 0 (some "left_earlobe"), mkKeypoint 0 0 0 0 (some "right_earlobe"))
    faceKeypoints := []
    handKeypoints := []
    necklaceKeypoint := mkKeypoint 0 0 0 0 (some "necklace")
    bodyScale := (1, 1, 1)
    chokerOffsets := (0, 0, 0)
    leftEarlobeOffsets := (0, 0, 0)
    necklaceOffsets := (0, 0, 0)
    rightEarlobeOffsets := (0, 0, 0)
    labels := none }

/-- The raw-label fallthrough of this variant's `getKeypointByLabel`,
identical in shape to the current variant's. -/
def Mesh.findKeypointByLabel (m : Mesh) (label : String) : Option Keypoint :=
  match m.faceKeypoints.find? (fun k => decide (k.label = some label)) with
  | some k => some k
  | none => m.bodyKeypoints.find? (fun k => decide (k.label = some label))

/-- This variant's `updateFaceKeypoints(rawFace)`: a null payload returns
without touching anything (no confidence zeroing here); otherwise the
collection is allocated on first use and each raw entry is copied in by
index. -/
def Mesh.updateFaceKeypoints (m : Mesh) (rawFace : Option RawFrame) : Option Mesh :=
  match rawFace with
  | none => some m
  | some f =>
    match f.keypoints with
    | none => some m
    | some raw =>
      let stored := if m.faceKeypoints.isEmpty
        then List.replicate raw.length
          (((mkKeypoint 0 0 0 0 (some "")).setColour "green").setSize 3)
        else m.faceKeypoints
      if raw.length ≤ stored.length then
        some { m with faceKeypoints := copyInto stored raw }
      else none

/-- The body copy loop of the offsets variant: `copyRawKeypoint` followed by
`scalePosition(...this.bodyScale)` at each raw index. -/
def copyIntoScaled (sx sy sz : ℚ) : List Keypoint → List RawKeypoint → List Keypoint
  | [], _ => []
  | k :: ks, [] => k :: ks
  | k :: ks, r :: rs =>
    (k.copyRawKeypoint r).scalePosition sx sy sz :: copyIntoScaled sx sy sz ks rs

/-- This variant's `updateBodyKeypoints(rawBody)`: as for the face, plus a
`scalePosition` by the body scale triple after every copy. -/
def Mesh.updateBodyKeypoints (m : Mesh) (rawBody : Option RawFrame) : Option Mesh :=
  match rawBody with
  | none => some m
  | some f =>
    match f.keypoints with
    | none => some m
    | some raw =>
      let stored := if m.bodyKeypoints.isEmpty
        then List.replicate raw.length ((mkKeypoint 0 0 0 0 (some "")).setColour "magenta")
        else m.bodyKeypoints
      if raw.length ≤ stored.length then
        some { m with bodyKeypoints :=
          copyIntoScaled m.bodyScale.1 m.bodyScale.2.1 m.bodyScale.2.2 stored raw }
      else none

/-- This variant's `updateHandKeypoints(rawHands)`: a null/empty payload
returns without touching anything; otherwise as in the current variant
(including the unoffset inner copy index). -/
def Mesh.updateHandKeypoints (m : Mesh) (rawHands : List RawHand) : Option Mesh :=
  if rawHands.isEmpty then some m
  else
    let stored := if m.handKeypoints.isEmpty
      then List.replicate ((rawHands.map fun h => h.keypoints.length).sum)
        ((mkKeypoint 0 0 0 0 (some "")).setColour "orange")
      else m.handKeypoints
    (copyHands stored rawHands).map fun ks => { m with handKeypoints := ks }

/-- This variant's `getNecklaceKeypoint()`: depends on the two shoulders
only; sets a uniform scale `|Δx| / 200`, the forward-axis rotation
`Δy / 5`, and the shoulder midpoint plus the necklace offsets. -/
def Mesh.getNecklaceKeypoint (m : Mesh) : Mesh × Keypoint :=
  let m1 : Mesh := { m with necklaceKeypoint := m.necklaceKeypoint.setConfidence 0 }
  match m1.findKeypointByLabel "left_shoulder" with
  | none => (m1, m1.necklaceKeypoint)
  | some ls =>
    match m1.findKeypointByLabel "right_shoulder" with
    | none => (m1, m1.necklaceKeypoint)
    | some rs =>
      let scale := |ls.x - rs.x| / 200
      let nk := (m1.necklaceKeypoint.setScale scale scale 1).setRotationZ ((rs.y - ls.y) / 5)
      let x := (ls.x + rs.x) / 2 + m1.necklaceOffsets.1
      let y := (ls.y + rs.y) / 2 + m1.necklaceOffsets.2.1
      let z := (ls.z + rs.z) / 2 + m1.necklaceOffsets.2.2
      let nk := ((nk.setConfidence 1).setPosition x y z).setColour "red"
      ({ m1 with necklaceKeypoint := nk }, nk)

/-- This variant's `getChokerKeypoint()`: depends on "nose" and on the
necklace anchor (recomputed through the `getKeypointByLabel("necklace")`
dispatch, which always returns the persistent anchor, so the source's null
check never fires); applies the choker offsets as the final translation.
Note the z formula adds half the SUM of the two depths, not a third of
their difference. -/
def Mesh.getChokerKeypoint (m : Mesh) : Mesh × Keypoint :=
  let m1 : Mesh := { m with chokerKeypoint := m.chokerKeypoint.setConfidence 0 }
  match m1.findKeypointByLabel "nose" with
  | none => (m1, m1.chokerKeypoint)
  | some nose =>
    let p := m1.getNecklaceKeypoint
    let necklace := p.2
    let x := necklace.x + (nose.x - necklace.x) / 3 + p.1.chokerOffsets.1
    let y := necklace.y + (nose.y - necklace.y) / 3 + p.1.chokerOffsets.2.1
    let z := necklace.z + (nose.z + necklace.z) / 2 + p.1.chokerOffsets.2.2
    let ck := ((p.1.chokerKeypoint.setConfidence 1).setPosition x y z).setColour "blue"
    ({ p.1 with chokerKeypoint := ck }, ck)

/-- Source `setChokerOffsets(x, y, z)`. -/
def Mesh.setChokerOffsets (m : Mesh) (xOffset yOffset zOffset : ℚ) : Mesh :=
  { m with chokerOffsets := (xOffset, yOffset, zOffset) }

/-- Source `setNecklaceOffsets(x, y, z)`. -/
def Mesh.setNecklaceOffsets (m : Mesh) (xOffset yOffset zOffset : ℚ) : Mesh :=
  { m with necklaceOffsets := (xOffset, yOffset, zOffset) }

/-- The label list built by a cache miss of `getKeypointLabels`: the four
anchor labels are pushed unconditionally, then the face and body labels
that are non-null. The JS array holds strings (or, for an unlabelled
anchor, null), hence `List (Option String)`. -/
def Mesh.computeKeypointLabels (m : Mesh) : List (Option String) :=
  [m.chokerKeypoint.label, m.earlobeKeypoints.1.label,
    m.earlobeKeypoints.2.label, m.necklaceKeypoint.label]
  ++ m.faceKeypoints.filterMap (fun k => k.label.map some)
  ++ m.bodyKeypoints.filterMap (fun k => k.label.map some)

/-- Source `getKeypointLabels()`: returns the cached list when `this.labels` is
non-null and non-empty; otherwise recomputes it and stores it in the
cache. Nothing in the class ever clears the cache. -/
def Mesh.getKeypointLabels (m : Mesh) : Mesh × List (Option String) :=
  match m.labels with
  | some l =>
    if 0 < l.length then (m, l)
    else
      let ls := m.computeKeypointLabels
      ({ m with labels := some ls }, ls)
  | none =>
    let ls := m.computeKeypointLabels
    ({ m with labels := some ls }, ls)

/-- One ingestion call, for reasoning about sequences of frames. -/
inductive Ingestion where
  | body (raw : Option RawFrame)
  | face (raw : Option RawFrame)
  | hand (raw : List RawHand)
deriving DecidableEq

/-- Runs one ingestion call on the Mesh. -/
def Mesh.applyIngestion (m : Mesh) : Ingestion → Option Mesh
  | Ingestion.body raw => m.updateBodyKeypoints raw
  | Ingestion.face raw => m.updateFaceKeypoints raw
  | Ingestion.hand raw => m.updateHandKeypoints raw

/-- Runs a sequence of ingestion calls. -/
def Mesh.applyAll (m : Mesh) : List Ingestion → Option Mesh
  | [] => some m
  | i :: rest => match m.applyIngestion i with
    | none => none
    | some m2 => m2.applyAll rest

end Offsets

/-! Support lemmas: the raw-label scan and the dependency lookups only read
the face and body collections, so updating an anchor field of the Mesh does
not change them. All of these hold by unfolding. -/

theorem findKeypointByLabel_set_choker (m : Mesh) (k : Keypoint) (l : String) :
    ({ m with chokerKeypoint := k } : Mesh).findKeypointByLabel l = m.findKeypointByLabel l := rfl

theorem findKeypointByLabel_set_necklace (m : Mesh) (k : Keypoint) (l : String) :
    ({ m with necklaceKeypoint := k } : Mesh).findKeypointByLabel l = m.findKeypointByLabel l := rfl

theorem findKeypointByLabel_set_earlobes (m : Mesh) (e : Keypoint × Keypoint) (l : String) :
    ({ m with earlobeKeypoints := e } : Mesh).findKeypointByLabel l = m.findKeypointByLabel l := rfl

theorem necklaceDeps_set_necklace (m : Mesh) (k : Keypoint) :
    ({ m with necklaceKeypoint := k } : Mesh).necklaceDeps = m.necklaceDeps := rfl

theorem necklaceDeps_set_choker (m : Mesh) (k : Keypoint) :
    ({ m with chokerKeypoint := k } : Mesh).necklaceDeps = m.necklaceDeps := rfl

theorem earlobeDeps_set_earlobes (m : Mesh) (e : Keypoint × Keypoint) :
    ({ m with earlobeKeypoints := e } : Mesh).earlobeDeps = m.earlobeDeps := rfl

/-- Characterization of `getNecklaceKeypoint` when all five dependencies
resolve: the whole state/value pair, with the returned anchor written as
the setter chain of the source. -/
theorem getNecklaceKeypoint_eq_of_deps (m : Mesh) (d : NecklaceDeps)
    (h : m.necklaceDeps = some d) :
    m.getNecklaceKeypoint =
      (let nk0 := m.necklaceKeypoint.setConfidence 0
       let nk1 := if nk0.displayingAsset then
           let width := |d.leftShoulder.x - d.rightShoulder.x| / 2
           let height := width / (nk0.assetWidth / nk0.assetHeight)
           nk0.setScale (width / nk0.assetWidth) (height / nk0.assetHeight) 1
         else nk0
       let nk2 := (nk1.setRotationY (-((d.rightEdgeFace.z - d.leftEdgeFace.z) / 3))).setRotationZ
         ((d.rightShoulder.y - d.leftShoulder.y) / 5)
       let x := (d.leftShoulder.x + d.rightShoulder.x) / 2
       let y0 := (d.leftShoulder.y + d.rightShoulder.y) / 2
       let nk := ((nk2.setConfidence 1).setPosition x (y0 + (d.bottomEdgeFace.y - y0) / 3)
         ((d.leftShoulder.z + d.rightShoulder.z) / 2)).setColour "red"
       ({ m with necklaceKeypoint := nk }, nk)) := by
  unfold Mesh.getNecklaceKeypoint
  simp only [necklaceDeps_set_necklace, h]

/-- Characterization of `getNecklaceKeypoint` when a dependency is missing:
the anchor's confidence is driven to 0 and nothing else changes. -/
theorem getNecklaceKeypoint_eq_of_no_deps (m : Mesh) (h : m.necklaceDeps = none) :
    m.getNecklaceKeypoint =
      ({ m with necklaceKeypoint := m.necklaceKeypoint.setConfidence 0 },
        m.necklaceKeypoint.setConfidence 0) := by
  unfold Mesh.getNecklaceKeypoint
  simp only [necklaceDeps_set_necklace, h]

/-- Reading the necklace anchor alters only the necklace field of the state,
and the returned keypoint is exactly the updated field. -/
theorem getNecklaceKeypoint_fst_eq (m : Mesh) :
    (m.getNecklaceKeypoint).1 = { m with necklaceKeypoint := (m.getNecklaceKeypoint).2 } := by
  unfold Mesh.getNecklaceKeypoint
  cases h : m.necklaceDeps <;> simp only [necklaceDeps_set_necklace, h]

/-- Characterization of `getChokerKeypoint` when the "nose" lookup succeeds. -/
theorem getChokerKeypoint_eq_of_nose (m : Mesh) (nose : Keypoint)
    (h : m.findKeypointByLabel "nose" = some nose) :
    m.getChokerKeypoint =
      (let m1 : Mesh := { m with chokerKeypoint := m.chokerKeypoint.setConfidence 0 }
       let p := m1.getNecklaceKeypoint
       let necklace := p.2
       let ck := ((p.1.chokerKeypoint.setConfidence 1).setPosition
         (necklace.x + (nose.x - necklace.x) / 3)
         (necklace.y + (nose.y - necklace.y) / 3)
         (necklace.z + (nose.z + necklace.z) / 2)).setColour "blue"
       ({ p.1 with chokerKeypoint := ck }, ck)) := by
  unfold Mesh.getChokerKeypoint
  simp only [findKeypointByLabel_set_choker, h]

/-- Characterization of `getChokerKeypoint` when the "nose" lookup fails. -/
theorem getChokerKeypoint_eq_of_no_nose (m : Mesh)
    (h : m.findKeypointByLabel "nose" = none) :
    m.getChokerKeypoint =
      ({ m with chokerKeypoint := m.chokerKeypoint.setConfidence 0 },
        m.chokerKeypoint.setConfidence 0) := by
  unfold Mesh.getChokerKeypoint
  simp only [findKeypointByLabel_set_choker, h]

/-- Characterization of `getEarlobeKeypoints` when all sixteen dependencies
resolve. -/
theorem getEarlobeKeypoints_eq_of_deps (m : Mesh) (d : EarlobeDeps)
    (h : m.earlobeDeps = some d) :
    m.getEarlobeKeypoints =
      (let m1 : Mesh :=
        { m with earlobeKeypoints :=
            (m.earlobeKeypoints.1.setConfidence 0, m.earlobeKeypoints.2.setConfidence 0) }
       let e0 := scaleEarlobe d.leftShoulder d.rightShoulder m1.earlobeKeypoints.1
       let e1 := scaleEarlobe d.leftShoulder d.rightShoulder m1.earlobeKeypoints.2
       let e0 := ((e0.setConfidence (if d.leftEdgeFace.z - d.rightEdgeFace.z > 40 then 0 else 1)).setPosition
         (((d.k323.x + |d.k366.x - d.k323.x|) + (d.k361.x + |d.k401.x - d.k361.x|)) / 2
           - e0.getWidth / 2)
         (((d.k323.y + |d.k366.y - d.k323.y|) + (d.k361.y + |d.k401.y - d.k361.y|)) / 2
           + e0.getHeight / 2)
         d.leftEar.z).setColour "yellow"
       let e1 := ((e1.setConfidence (if d.rightEdgeFace.z - d.leftEdgeFace.z > 40 then 0 else 1)).setPosition
         (((d.k132.x - |d.k132.x - d.k177.x|) + (d.k93.x - |d.k93.x - d.k137.x|)) / 2
           + e1.getWidth / 2)
         (((d.k132.y - |d.k132.y - d.k177.y|) + (d.k93.y - |d.k93.y - d.k137.y|)) / 2
           + e1.getHeight / 2)
         d.rightEar.z).setColour "yellow"
       ({ m1 with earlobeKeypoints := (e0, e1) }, (e0, e1))) := by
  unfold Mesh.getEarlobeKeypoints
  simp only [earlobeDeps_set_earlobes, h]

/-- Characterization of `getEarlobeKeypoints` when a dependency is missing:
both anchors' confidences are driven to 0 and nothing else changes. -/
theorem getEarlobeKeypoints_eq_of_no_deps (m : Mesh) (h : m.earlobeDeps = none) :
    m.getEarlobeKeypoints =
      ({ m with earlobeKeypoints :=
          (m.earlobeKeypoints.1.setConfidence 0, m.earlobeKeypoints.2.setConfidence 0) },
        (m.earlobeKeypoints.1.setConfidence 0, m.earlobeKeypoints.2.setConfidence 0)) := by
  unfold Mesh.getEarlobeKeypoints
  simp only [earlobeDeps_set_earlobes, h]

/-! Concrete states used by witnesses and counterexamples. -/

/-- A detected keypoint with a label, confidence 1 and otherwise default
fields. -/
def kpAt (label : String) (x y z : ℚ) : Keypoint := mkKeypoint x y z 1 (some label)

/-- A Mesh state in which all sixteen earlobe dependencies resolve and the
face depth difference `right_edge_face.z - left_edge_face.z` is 45. -/
def M2 : Mesh :=
  { Mesh.new with
      faceKeypoints :=
        [kpAt "left_edge_face" 1 2 0, kpAt "right_edge_face" 3 4 45,
          kpAt "top_edge_face" 5 6 0, kpAt "bottom_edge_face" 7 8 0]
        ++ List.replicate 398 (kpAt "" 1 1 1)
      bodyKeypoints :=
        [kpAt "left_ear" 10 11 0, kpAt "right_ear" 12 13 0,
          kpAt "left_shoulder" 60 80 0, kpAt "right_shoulder" 140 80 0] }

/-- The dependency bundle that `M2.earlobeDeps` resolves to. -/
def earlobeDepsM2 : EarlobeDeps :=
  { leftEar := kpAt "left_ear" 10 11 0, rightEar := kpAt "right_ear" 12 13 0
    leftEdgeFace := kpAt "left_edge_face" 1 2 0, rightEdgeFace := kpAt "right_edge_face" 3 4 45
    topEdgeFace := kpAt "top_edge_face" 5 6 0, bottomEdgeFace := kpAt "bottom_edge_face" 7 8 0
    leftShoulder := kpAt "left_shoulder" 60 80 0, rightShoulder := kpAt "right_shoulder" 140 80 0
    k93 := kpAt "" 1 1 1, k132 := kpAt "" 1 1 1, k137 := kpAt "" 1 1 1, k177 := kpAt "" 1 1 1
    k323 := kpAt "" 1 1 1, k361 := kpAt "" 1 1 1, k366 := kpAt "" 1 1 1, k401 := kpAt "" 1 1 1 }

/-- C2: when all earlobe dependencies resolve, the right earlobe's
confidence is forced to 0 exactly when `right_edge_face.z − left_edge_face.z
> 40`, the left earlobe's exactly when `left_edge_face.z − right_edge_face.z
> 40`, and each is 1 otherwise, independently of the other. -/
theorem earlobe_occlusion_gating (m : Mesh) (d : EarlobeDeps)
    (h : m.earlobeDeps = some d) :
    ((m.getEarlobeKeypoints).2.2.confidence = 0 ↔ d.rightEdgeFace.z - d.leftEdgeFace.z > 40)
    ∧ ((m.getEarlobeKeypoints).2.1.confidence = 0 ↔ d.leftEdgeFace.z - d.rightEdgeFace.z > 40)
    ∧ (¬ d.rightEdgeFace.z - d.leftEdgeFace.z > 40 → (m.getEarlobeKeypoints).2.2.confidence = 1)
    ∧ (¬ d.leftEdgeFace.z - d.rightEdgeFace.z > 40 → (m.getEarlobeKeypoints).2.1.confidence = 1) := by
  rw [getEarlobeKeypoints_eq_of_deps m d h]
  by_cases hL : d.rightEdgeFace.z - d.leftEdgeFace.z > 40 <;>
    by_cases hR : d.leftEdgeFace.z - d.rightEdgeFace.z > 40 <;>
    simp [hL, hR, Keypoint.setConfidence, Keypoint.setPosition, Keypoint.setColour,
      Keypoint.setX, Keypoint.setY, Keypoint.setZ]

set_option maxRecDepth 400000 in
/-- C2 witness: in `M2` the depth difference is 45 > 40, so the right
earlobe's confidence is 0 while the left earlobe's confidence is 1. -/
theorem earlobe_occlusion_gating_witness :
    (M2.getEarlobeKeypoints).2.2.confidence = 0
    ∧ (M2.getEarlobeKeypoints).2.1.confidence = 1 := by
  have h := earlobe_occlusion_gating M2 earlobeDepsM2 (by decide)
  refine ⟨h.1.mpr ?_, h.2.2.2 ?_⟩ <;>
    norm_num [earlobeDepsM2, kpAt, mkKeypoint]

/-- Reading the choker anchor returns exactly the post-state persistent
choker keypoint. -/
theorem getChokerKeypoint_returns_anchor (m : Mesh) :
    (m.getChokerKeypoint).2 = (m.getChokerKeypoint).1.chokerKeypoint := by
  cases h : m.findKeypointByLabel "nose" with
  | none => rw [getChokerKeypoint_eq_of_no_nose m h]
  | some nose => rw [getChokerKeypoint_eq_of_nose m nose h]

/-- Reading the necklace anchor returns exactly the post-state persistent
necklace keypoint. -/
theorem getNecklaceKeypoint_returns_anchor (m : Mesh) :
    (m.getNecklaceKeypoint).2 = (m.getNecklaceKeypoint).1.necklaceKeypoint := by
  rw [getNecklaceKeypoint_fst_eq]

/-- Reading the earlobe anchors returns exactly the post-state persistent
earlobe pair. -/
theorem getEarlobeKeypoints_returns_anchor (m : Mesh) :
    (m.getEarlobeKeypoints).2 = (m.getEarlobeKeypoints).1.earlobeKeypoints := by
  cases h : m.earlobeDeps with
  | none => rw [getEarlobeKeypoints_eq_of_no_deps m h]
  | some d => rw [getEarlobeKeypoints_eq_of_deps m d h]

/-- C3: every derived-anchor read (choker, necklace, earlobes) returns the
persistent anchor object; a missing dependency yields confidence exactly 0
with the stale position preserved (and raises nothing: the reads are total
functions); full resolution yields confidence exactly 1, where for the
earlobes the rotation-occlusion override alone can replace that 1 by 0;
confidence is never an intermediate value. -/
theorem derived_anchor_confidence_policy (m : Mesh) :
    ((m.getChokerKeypoint).2 = (m.getChokerKeypoint).1.chokerKeypoint
      ∧ ((m.getChokerKeypoint).2.confidence = 0 ∨ (m.getChokerKeypoint).2.confidence = 1)
      ∧ (m.findKeypointByLabel "nose" = none →
          (m.getChokerKeypoint).2.confidence = 0
          ∧ (m.getChokerKeypoint).2.x = m.chokerKeypoint.x
          ∧ (m.getChokerKeypoint).2.y = m.chokerKeypoint.y
          ∧ (m.getChokerKeypoint).2.z = m.chokerKeypoint.z)
      ∧ (∀ nose, m.findKeypointByLabel "nose" = some nose →
          (m.getChokerKeypoint).2.confidence = 1))
    ∧ ((m.getNecklaceKeypoint).2 = (m.getNecklaceKeypoint).1.necklaceKeypoint
      ∧ ((m.getNecklaceKeypoint).2.confidence = 0 ∨ (m.getNecklaceKeypoint).2.confidence = 1)
      ∧ (m.necklaceDeps = none →
          (m.getNecklaceKeypoint).2.confidence = 0
          ∧ (m.getNecklaceKeypoint).2.x = m.necklaceKeypoint.x
          ∧ (m.getNecklaceKeypoint).2.y = m.necklaceKeypoint.y
          ∧ (m.getNecklaceKeypoint).2.z = m.necklaceKeypoint.z)
      ∧ (∀ d, m.necklaceDeps = some d → (m.getNecklaceKeypoint).2.confidence = 1))
    ∧ ((m.getEarlobeKeypoints).2 = (m.getEarlobeKeypoints).1.earlobeKeypoints
      ∧ ((m.getEarlobeKeypoints).2.1.confidence = 0 ∨ (m.getEarlobeKeypoints).2.1.confidence = 1)
      ∧ ((m.getEarlobeKeypoints).2.2.confidence = 0 ∨ (m.getEarlobeKeypoints).2.2.confidence = 1)
      ∧ (m.earlobeDeps = none →
          (m.getEarlobeKeypoints).2.1.confidence = 0
          ∧ (m.getEarlobeKeypoints).2.2.confidence = 0
          ∧ (m.getEarlobeKeypoints).2.1.x = m.earlobeKeypoints.1.x
          ∧ (m.getEarlobeKeypoints).2.1.y = m.earlobeKeypoints.1.y
          ∧ (m.getEarlobeKeypoints).2.1.z = m.earlobeKeypoints.1.z
          ∧ (m.getEarlobeKeypoints).2.2.x = m.earlobeKeypoints.2.x
          ∧ (m.getEarlobeKeypoints).2.2.y = m.earlobeKeypoints.2.y
          ∧ (m.getEarlobeKeypoints).2.2.z = m.earlobeKeypoints.2.z)
      ∧ (∀ d, m.earlobeDeps = some d →
          (m.getEarlobeKeypoints).2.1.confidence
            = (if d.leftEdgeFace.z - d.rightEdgeFace.z > 40 then 0 else 1)
          ∧ (m.getEarlobeKeypoints).2.2.confidence
            = (if d.rightEdgeFace.z - d.leftEdgeFace.z > 40 then 0 else 1))) := by
  refine ⟨⟨getChokerKeypoint_returns_anchor m, ?_, ?_, ?_⟩,
    ⟨getNecklaceKeypoint_returns_anchor m, ?_, ?_, ?_⟩,
    ⟨getEarlobeKeypoints_returns_anchor m, ?_, ?_, ?_, ?_⟩⟩
  · cases h : m.findKeypointByLabel "nose" with
    | none =>
      rw [getChokerKeypoint_eq_of_no_nose m h]
      exact Or.inl rfl
    | some nose =>
      rw [getChokerKeypoint_eq_of_nose m nose h]
      exact Or.inr rfl
  · intro h
    rw [getChokerKeypoint_eq_of_no_nose m h]
    exact ⟨rfl, rfl, rfl, rfl⟩
  · intro nose h
    rw [getChokerKeypoint_eq_of_nose m nose h]
    rfl
  · cases h : m.necklaceDeps with
    | none =>
      rw [getNecklaceKeypoint_eq_of_no_deps m h]
      exact Or.inl rfl
    | some d =>
      rw [getNecklaceKeypoint_eq_of_deps m d h]
      exact Or.inr rfl
  · intro h
    rw [getNecklaceKeypoint_eq_of_no_deps m h]
    exact ⟨rfl, rfl, rfl, rfl⟩
  · intro d h
    rw [getNecklaceKeypoint_eq_of_deps m d h]
    rfl
  · cases h : m.earlobeDeps with
    | none =>
      rw [getEarlobeKeypoints_eq_of_no_deps m h]
      exact Or.inl rfl
    | some d =>
      rw [getEarlobeKeypoints_eq_of_deps m d h]
      by_cases hR : d.leftEdgeFace.z - d.rightEdgeFace.z > 40 <;>
        simp [hR, Keypoint.setConfidence, Keypoint.setPosition, Keypoint.setColour,
          Keypoint.setX, Keypoint.setY, Keypoint.setZ]
  · cases h : m.earlobeDeps with
    | none =>
      rw [getEarlobeKeypoints_eq_of_no_deps m h]
      exact Or.inl rfl
    | some d =>
      rw [getEarlobeKeypoints_eq_of_deps m d h]
      by_cases hL : d.rightEdgeFace.z - d.leftEdgeFace.z > 40 <;>
        simp [hL, Keypoint.setConfidence, Keypoint.setPosition, Keypoint.setColour,
          Keypoint.setX, Keypoint.setY, Keypoint.setZ]
  · intro h
    rw [getEarlobeKeypoints_eq_of_no_deps m h]
    exact ⟨rfl, rfl, rfl, rfl, rfl, rfl, rfl, rfl⟩
  · intro d h
    rw [getEarlobeKeypoints_eq_of_deps m d h]
    exact ⟨rfl, rfl⟩

/-- C3 witness: on a freshly constructed Mesh, every dependency is missing;
each anchor read returns confidence exactly 0 and leaves the position at
its previous (initial) value. -/
theorem derived_anchor_confidence_policy_witness :
    (Mesh.new.getChokerKeypoint).2.confidence = 0
    ∧ (Mesh.new.getChokerKeypoint).2.x = Mesh.new.chokerKeypoint.x
    ∧ (Mesh.new.getNecklaceKeypoint).2.confidence = 0
    ∧ (Mesh.new.getEarlobeKeypoints).2.1.confidence = 0 := by
  have h := derived_anchor_confidence_policy Mesh.new
  exact ⟨(h.1.2.2.1 (by decide)).1, (h.1.2.2.1 (by decide)).2.1,
    (h.2.1.2.2.1 (by decide)).1, (h.2.2.2.2.2.1 (by decide)).1⟩

/-! Lemmas on the shared ingestion loops. -/

/-- The confidence-zeroing loop preserves length and changes only the
confidence field at each index. -/
theorem zeroConfidences_spec (l : List Keypoint) :
    (zeroConfidences l).length = l.length
    ∧ ∀ (i : ℕ) (k k' : Keypoint), l[i]? = some k → (zeroConfidences l)[i]? = some k' →
        k'.confidence = 0 ∧ k'.x = k.x ∧ k'.y = k.y ∧ k'.z = k.z ∧ k'.label = k.label := by
  constructor
  · simp [zeroConfidences]
  · intro i k k' hk hk'
    simp only [zeroConfidences, List.getElem?_map, hk, Option.map_some'] at hk'
    cases hk'
    exact ⟨rfl, rfl, rfl, rfl, rfl⟩

/-- The copy loop preserves the length of the stored collection. -/
theorem copyInto_length (s : List Keypoint) (r : List RawKeypoint) :
    (copyInto s r).length = s.length := by
  induction s generalizing r with
  | nil => cases r <;> rfl
  | cons k ks ih =>
    cases r with
    | nil => rfl
    | cons a as => simp [copyInto, ih]

/-- At each index covered by the raw payload, the copy loop stores the
field-update of the previously stored keypoint at the same index. -/
theorem copyInto_getElem? (s : List Keypoint) (r : List RawKeypoint) (i : ℕ)
    (k : Keypoint) (a : RawKeypoint) (hk : s[i]? = some k) (ha : r[i]? = some a) :
    (copyInto s r)[i]? = some (k.copyRawKeypoint a) := by
  induction s generalizing r i with
  | nil => simp at hk
  | cons x xs ih =>
    cases r with
    | nil => simp at ha
    | cons b bs =>
      cases i with
      | zero =>
        simp only [List.getElem?_cons_zero, Option.some.injEq] at hk ha
        subst hk; subst ha
        simp [copyInto]
      | succ n =>
        simp only [List.getElem?_cons_succ] at hk ha
        simpa [copyInto] using ih bs n hk ha

/-- Whether a body/face payload takes the absent/empty early path of the
current variant's ingestion functions. -/
def emptyPayload : Option RawFrame → Bool
  | none => true
  | some f =>
    match f.keypoints with
    | none => true
    | some l => l.isEmpty

/-- C4: a body, face or hand ingestion whose payload is absent or empty
sets every stored keypoint's confidence in that collection to 0, leaves
its position and label unchanged, and leaves the collection's length
unchanged. -/
theorem empty_ingestion_zeroes_confidence (m : Mesh) (rawFace rawBody : Option RawFrame)
    (rawHands : List RawHand) :
    (emptyPayload rawFace = true →
      ∃ m', m.updateFaceKeypoints rawFace = some m'
        ∧ m'.faceKeypoints.length = m.faceKeypoints.length
        ∧ ∀ (i : ℕ) (k k' : Keypoint), m.faceKeypoints[i]? = some k → m'.faceKeypoints[i]? = some k' →
            k'.confidence = 0 ∧ k'.x = k.x ∧ k'.y = k.y ∧ k'.z = k.z ∧ k'.label = k.label)
    ∧ (emptyPayload rawBody = true →
      ∃ m', m.updateBodyKeypoints rawBody = some m'
        ∧ m'.bodyKeypoints.length = m.bodyKeypoints.length
        ∧ ∀ (i : ℕ) (k k' : Keypoint), m.bodyKeypoints[i]? = some k → m'.bodyKeypoints[i]? = some k' →
            k'.confidence = 0 ∧ k'.x = k.x ∧ k'.y = k.y ∧ k'.z = k.z ∧ k'.label = k.label)
    ∧ (rawHands = [] →
      ∃ m', m.updateHandKeypoints rawHands = some m'
        ∧ m'.handKeypoints.length = m.handKeypoints.length
        ∧ ∀ (i : ℕ) (k k' : Keypoint), m.handKeypoints[i]? = some k → m'.handKeypoints[i]? = some k' →
            k'.confidence = 0 ∧ k'.x = k.x ∧ k'.y = k.y ∧ k'.z = k.z ∧ k'.label = k.label) := by
  refine ⟨?_, ?_, ?_⟩
  · intro h
    refine ⟨{ m with faceKeypoints := zeroConfidences m.faceKeypoints }, ?_,
      (zeroConfidences_spec m.faceKeypoints).1, (zeroConfidences_spec m.faceKeypoints).2⟩
    cases rawFace with
    | none => rfl
    | some f =>
      cases hf : f.keypoints with
      | none => simp [Mesh.updateFaceKeypoints, hf]
      | some raw =>
        simp only [emptyPayload, hf] at h
        simp [Mesh.updateFaceKeypoints, hf, h]
  · intro h
    refine ⟨{ m with bodyKeypoints := zeroConfidences m.bodyKeypoints }, ?_,
      (zeroConfidences_spec m.bodyKeypoints).1, (zeroConfidences_spec m.bodyKeypoints).2⟩
    cases rawBody with
    | none => rfl
    | some f =>
      cases hf : f.keypoints with
      | none => simp [Mesh.updateBodyKeypoints, hf]
      | some raw =>
        simp only [emptyPayload, hf] at h
        simp [Mesh.updateBodyKeypoints, hf, h]
  · intro h
    subst h
    exact ⟨{ m with handKeypoints := zeroConfidences m.handKeypoints }, rfl,
      (zeroConfidences_spec m.handKeypoints).1, (zeroConfidences_spec m.handKeypoints).2⟩

/-- C4 witness: a Mesh holding one body keypoint, fed an absent body
payload, keeps the keypoint's position and label but zeroes its
confidence. -/
theorem empty_ingestion_zeroes_confidence_witness :
    ∃ m', ({ Mesh.new with bodyKeypoints := [kpAt "nose" 7 8 9] } : Mesh).updateBodyKeypoints
        none = some m'
      ∧ m'.bodyKeypoints.length = 1
      ∧ ∀ (k' : Keypoint), m'.bodyKeypoints[0]? = some k' →
          k'.confidence = 0 ∧ k'.x = 7 ∧ k'.y = 8 ∧ k'.z = 9 ∧ k'.label = some "nose" := by
  obtain ⟨m', hm', hlen, hidx⟩ :=
    (empty_ingestion_zeroes_confidence
      { Mesh.new with bodyKeypoints := [kpAt "nose" 7 8 9] } none none []).2.1 (by decide)
  exact ⟨m', hm', hlen, fun k' hk' => hidx 0 (kpAt "nose" 7 8 9) k' (by decide) hk'⟩

/-- C5: once a collection holds N keypoints, a non-empty ingestion of
length N keeps the length at N and stores, at every index, the in-place
field-update of the keypoint previously stored at that index (identity
modelled functionally: each new value is `copyRawKeypoint` of the old one,
which rewrites only position, confidence and label and preserves every
other field); a first non-empty ingestion into an empty collection fixes
the length at N; a non-empty hand ingestion never changes a non-empty hand
collection's length. -/
theorem ingestion_identity_stability (m : Mesh) (raw : List RawKeypoint)
    (rawHands : List RawHand) (N : ℕ) :
    ((m.bodyKeypoints = [] ∧ raw.length = N ∧ 0 < N →
      ∃ m', m.updateBodyKeypoints (some ⟨some raw⟩) = some m'
        ∧ m'.bodyKeypoints.length = N)
    ∧ (m.bodyKeypoints.length = N ∧ raw.length = N ∧ 0 < N →
      ∃ m', m.updateBodyKeypoints (some ⟨some raw⟩) = some m'
        ∧ m'.bodyKeypoints.length = N
        ∧ ∀ (i : ℕ) (k : Keypoint) (r : RawKeypoint),
            m.bodyKeypoints[i]? = some k → raw[i]? = some r →
            m'.bodyKeypoints[i]? = some (k.copyRawKeypoint r)))
    ∧ ((m.faceKeypoints = [] ∧ raw.length = N ∧ 0 < N →
      ∃ m', m.updateFaceKeypoints (some ⟨some raw⟩) = some m'
        ∧ m'.faceKeypoints.length = N)
    ∧ (m.faceKeypoints.length = N ∧ raw.length = N ∧ 0 < N →
      ∃ m', m.updateFaceKeypoints (some ⟨some raw⟩) = some m'
        ∧ m'.faceKeypoints.length = N
        ∧ ∀ (i : ℕ) (k : Keypoint) (r : RawKeypoint),
            m.faceKeypoints[i]? = some k → raw[i]? = some r →
            m'.faceKeypoints[i]? = some (k.copyRawKeypoint r)))
    ∧ (m.handKeypoints.length = N ∧ 0 < N ∧ rawHands ≠ [] →
      ∀ m', m.updateHandKeypoints rawHands = some m' → m'.handKeypoints.length = N)
    ∧ (∀ (k : Keypoint) (r : RawKeypoint), (k.copyRawKeypoint r).colour = k.colour
        ∧ (k.copyRawKeypoint r).width = k.width ∧ (k.copyRawKeypoint r).height = k.height
        ∧ (k.copyRawKeypoint r).scaleX = k.scaleX ∧ (k.copyRawKeypoint r).scaleY = k.scaleY
        ∧ (k.copyRawKeypoint r).scaleZ = k.scaleZ ∧ (k.copyRawKeypoint r).rotX = k.rotX
        ∧ (k.copyRawKeypoint r).rotY = k.rotY ∧ (k.copyRawKeypoint r).rotZ = k.rotZ
        ∧ (k.copyRawKeypoint r).assetWidth = k.assetWidth
        ∧ (k.copyRawKeypoint r).assetHeight = k.assetHeight
        ∧ (k.copyRawKeypoint r).displayingAsset = k.displayingAsset) := by
  have hne : ∀ (hl : raw.length = N) (h0 : 0 < N), raw.isEmpty = false := by
    intro hl h0
    cases raw with
    | nil => simp at hl; omega
    | cons a as => rfl
  refine ⟨⟨?_, ?_⟩, ⟨?_, ?_⟩, ?_, ?_⟩
  · rintro ⟨hemp, hl, h0⟩
    refine
      ⟨{ m with
          bodyKeypoints :=
            copyInto (List.replicate raw.length ((mkKeypoint 0 0 0 0 (some "")).setColour "magenta")) raw },
        ?_, ?_⟩
    · simp [Mesh.updateBodyKeypoints, hne hl h0, hemp]
    · simp [copyInto_length, hl]
  · rintro ⟨hlen, hl, h0⟩
    have hst : m.bodyKeypoints.isEmpty = false := by
      cases hb : m.bodyKeypoints with
      | nil => rw [hb] at hlen; simp at hlen; omega
      | cons a as => rfl
    refine ⟨{ m with bodyKeypoints := copyInto m.bodyKeypoints raw }, ?_, ?_, ?_⟩
    · simp [Mesh.updateBodyKeypoints, hne hl h0, hst, hl, hlen]
    · simp [copyInto_length, hlen]
    · intro i k r hk hr
      exact copyInto_getElem? m.bodyKeypoints raw i k r hk hr
  · rintro ⟨hemp, hl, h0⟩
    refine
      ⟨{ m with
          faceKeypoints :=
            copyInto (List.replicate raw.length (((mkKeypoint 0 0 0 0 (some "")).setColour "green").setSize 3)) raw },
        ?_, ?_⟩
    · simp [Mesh.updateFaceKeypoints, hne hl h0, hemp]
    · simp [copyInto_length, hl]
  · rintro ⟨hlen, hl, h0⟩
    have hst : m.faceKeypoints.isEmpty = false := by
      cases hb : m.faceKeypoints with
      | nil => rw [hb] at hlen; simp at hlen; omega
      | cons a as => rfl
    refine ⟨{ m with faceKeypoints := copyInto m.faceKeypoints raw }, ?_, ?_, ?_⟩
    · simp [Mesh.updateFaceKeypoints, hne hl h0, hst, hl, hlen]
    · simp [copyInto_length, hlen]
    · intro i k r hk hr
      exact copyInto_getElem? m.faceKeypoints raw i k r hk hr
  · rintro ⟨hlen, h0, hne'⟩ m' hm'
    have hst : m.handKeypoints.isEmpty = false := by
      cases hb : m.handKeypoints with
      | nil => rw [hb] at hlen; simp at hlen; omega
      | cons a as => rfl
    have hcopy : ∀ (hs : List RawHand) (s : List Keypoint) (res : List Keypoint),
        copyHands s hs = some res → res.length = s.length := by
      intro hs
      induction hs with
      | nil => intro s res h; cases h; rfl
      | cons a as ih =>
        intro s res h
        unfold copyHands at h
        by_cases hc : a.keypoints.length ≤ s.length
        · rw [if_pos hc] at h
          rw [ih (copyInto s a.keypoints) res h, copyInto_length]
        · rw [if_neg hc] at h; cases h
    have hupd : m.updateHandKeypoints rawHands
        = (copyHands m.handKeypoints rawHands).map
            (fun ks => ({ m with handKeypoints := ks } : Mesh)) := by
      unfold Mesh.updateHandKeypoints
      rw [if_neg (by simpa using hne'), if_neg (by simp [hst])]
    rw [hupd] at hm'
    cases hres : copyHands m.handKeypoints rawHands with
    | none => rw [hres] at hm'; cases hm'
    | some res =>
      rw [hres, Option.map_some'] at hm'
      cases hm'
      exact (hcopy rawHands m.handKeypoints res hres).trans hlen
  · intro k r
    exact ⟨rfl, rfl, rfl, rfl, rfl, rfl, rfl, rfl, rfl, rfl, rfl, rfl⟩

/-- C5 witness: a second body frame of the same length 1 is stored as the
in-place update of the previously stored keypoint at index 0. -/
theorem ingestion_identity_stability_witness :
    ∃ m', ({ Mesh.new with bodyKeypoints := [kpAt "nose" 7 8 9] } : Mesh).updateBodyKeypoints
        (some ⟨some [⟨some 1, some 2, none, some 1, some "nose"⟩]⟩) = some m'
      ∧ m'.bodyKeypoints.length = 1
      ∧ m'.bodyKeypoints[0]?
          = some ((kpAt "nose" 7 8 9).copyRawKeypoint ⟨some 1, some 2, none, some 1, some "nose"⟩) := by
  obtain ⟨m', hm', hlen, hidx⟩ :=
    (ingestion_identity_stability { Mesh.new with bodyKeypoints := [kpAt "nose" 7 8 9] }
      [⟨some 1, some 2, none, some 1, some "nose"⟩] [] 1).1.2 ⟨by decide, by decide, by decide⟩
  exact ⟨m', hm', hlen, hidx 0 (kpAt "nose" 7 8 9) _ (by decide) (by decide)⟩

/-- A Mesh state in which the shoulders and the bottom face edge resolve
but the left/right face edges do not. -/
def M6 : Mesh :=
  { Mesh.new with
      faceKeypoints := [kpAt "bottom_edge_face" 100 100 0]
      bodyKeypoints := [kpAt "left_shoulder" 60 80 0, kpAt "right_shoulder" 140 80 0] }

/-- C6 counterexample: with `left_shoulder`, `right_shoulder` and
`bottom_edge_face` all resolving but `left_edge_face` missing, the claimed
necklace position (100, 260/3, 0) is not produced: the read bails out with
the stale position (0 on the x axis). -/
theorem necklace_claim_false_without_edge_faces :
    (M6.findKeypointByLabel "left_shoulder").isSome = true
    ∧ (M6.findKeypointByLabel "right_shoulder").isSome = true
    ∧ (M6.findKeypointByLabel "bottom_edge_face").isSome = true
    ∧ (M6.findKeypointByLabel "left_edge_face").isSome = false
    ∧ (M6.getNecklaceKeypoint).2.x = 0
    ∧ ¬ ((M6.getNecklaceKeypoint).2.x = 100
        ∧ (M6.getNecklaceKeypoint).2.y
            = (60 + 140) / 2 + (100 - (60 + 140) / 2) / 3
        ∧ (M6.getNecklaceKeypoint).2.z = 0) := by
  have hd : M6.necklaceDeps = none := by decide
  have hx : (M6.getNecklaceKeypoint).2.x = 0 := by
    rw [getNecklaceKeypoint_eq_of_no_deps M6 hd]
    rfl
  refine ⟨by decide, by decide, by decide, by decide, hx, ?_⟩
  rintro ⟨h1, -, -⟩
  rw [hx] at h1
  norm_num at h1

/-- A Mesh state in which all five necklace dependencies resolve, with the
shoulder and bottom-edge values of the running example. -/
def M6b : Mesh :=
  { Mesh.new with
      faceKeypoints := [kpAt "left_edge_face" 20 30 2, kpAt "right_edge_face" 180 30 5,
        kpAt "bottom_edge_face" 100 100 0]
      bodyKeypoints := [kpAt "left_shoulder" 60 80 0, kpAt "right_shoulder" 140 80 0] }

/-- The dependency bundle that `M6b.necklaceDeps` resolves to. -/
def necklaceDepsM6b : NecklaceDeps :=
  { leftEdgeFace := kpAt "left_edge_face" 20 30 2, rightEdgeFace := kpAt "right_edge_face" 180 30 5
    leftShoulder := kpAt "left_shoulder" 60 80 0, rightShoulder := kpAt "right_shoulder" 140 80 0
    bottomEdgeFace := kpAt "bottom_edge_face" 100 100 0 }

/-- C6 amended: when `left_shoulder`, `right_shoulder`, `bottom_edge_face`,
`left_edge_face` and `right_edge_face` all resolve, the necklace position
is the shoulder midpoint on x and z, and on y the shoulder midpoint moved
one third of the way toward `bottom_edge_face.y`; this variant applies no
offsets, and the confidence is 1. -/
theorem necklace_position_amended (m : Mesh) (d : NecklaceDeps)
    (h : m.necklaceDeps = some d) :
    (m.getNecklaceKeypoint).2.x = (d.leftShoulder.x + d.rightShoulder.x) / 2
    ∧ (m.getNecklaceKeypoint).2.y = (d.leftShoulder.y + d.rightShoulder.y) / 2
        + (d.bottomEdgeFace.y - (d.leftShoulder.y + d.rightShoulder.y) / 2) / 3
    ∧ (m.getNecklaceKeypoint).2.z = (d.leftShoulder.z + d.rightShoulder.z) / 2
    ∧ (m.getNecklaceKeypoint).2.confidence = 1 := by
  rw [getNecklaceKeypoint_eq_of_deps m d h]
  exact ⟨rfl, rfl, rfl, rfl⟩

/-- C6 witness: in `M6b` the necklace position evaluates to
(100, 80 + 20/3, 0) with confidence 1. -/
theorem necklace_position_amended_witness :
    (M6b.getNecklaceKeypoint).2.x = 100
    ∧ (M6b.getNecklaceKeypoint).2.y = 80 + 20 / 3
    ∧ (M6b.getNecklaceKeypoint).2.z = 0
    ∧ (M6b.getNecklaceKeypoint).2.confidence = 1 := by
  have h := necklace_position_amended M6b necklaceDepsM6b (by decide)
  refine ⟨h.1.trans ?_, h.2.1.trans ?_, h.2.2.1.trans ?_, h.2.2.2⟩ <;>
    norm_num [necklaceDepsM6b, kpAt, mkKeypoint]

/-- A raw left hand with one point of score 2. -/
def handL : RawHand := ⟨"Left", [⟨some 1, some 2, none, some 2, some "wrist"⟩]⟩

/-- A raw right hand with one point of score 3. -/
def handR : RawHand := ⟨"Right", [⟨some 7, some 8, none, some 3, some "wrist"⟩]⟩

/-- C7: evaluation at the failing input. A detector tick with one left and
one right hand allocates two stored keypoints (one per contained point over
both hands), but both hands' copy loops write index 0, so the right hand's
relabelled point overwrites the left hand's and the second slot keeps its
initial empty label and confidence 0: the stored collection never contains
the "left_wrist" point. -/
theorem hand_ingestion_overwrite_bug :
    (handDetectorTick Mesh.new [handL, handR]).map
        (fun m' => m'.handKeypoints.map fun k => (k.label, k.confidence))
      = some [(some "right_wrist", 3), (some "", 0)] := by decide

/-- The face raw entry used by the C9 counterexample: it carries no score. -/
def rawUnscored : RawKeypoint := ⟨some 1, some 2, some 3, none, some "nose"⟩

/-- The body raw entry used by the C9 witness: it carries score 2. -/
def rawScored : RawKeypoint := ⟨some 5, some 6, none, some 2, some "nose"⟩

/-- C9 counterexample: a face ingestion stores confidence 1 for an entry
that carries no provider score at all, so the stored confidence does not
equal "the score supplied by the detection provider" — no such score
exists. -/
theorem face_score_passthrough_false :
    ((Mesh.new.updateFaceKeypoints (some ⟨some [rawUnscored]⟩)).map
        (fun m' => m'.faceKeypoints.map fun k => k.confidence) = some [1])
    ∧ ¬ ∃ s : ℚ, rawUnscored.score = some s := by
  refine ⟨by decide, ?_⟩
  rintro ⟨s, hs⟩
  simp [rawUnscored] at hs

/-- A Mesh holding one body keypoint and one face keypoint, for the C9
witness. -/
def M9 : Mesh :=
  { Mesh.new with
      bodyKeypoints := [kpAt "nose" 1 1 0]
      faceKeypoints := [kpAt "brow" 1 1 0] }

/-- C9 amended: at every index of a length-matching non-empty ingestion the
stored confidence is the provider score when the raw entry carries one
(the body payload) and the constant 1 when it carries none (the face
payload). -/
theorem confidence_passthrough_amended (m : Mesh) (raw : List RawKeypoint)
    (hne : raw ≠ []) :
    (m.bodyKeypoints.length = raw.length →
      ∃ m', m.updateBodyKeypoints (some ⟨some raw⟩) = some m'
        ∧ ∀ (i : ℕ) (k : Keypoint) (r : RawKeypoint),
            m.bodyKeypoints[i]? = some k → raw[i]? = some r →
            m'.bodyKeypoints[i]? = some (k.copyRawKeypoint r)
            ∧ (k.copyRawKeypoint r).confidence = r.score.getD 1)
    ∧ (m.faceKeypoints.length = raw.length →
      ∃ m', m.updateFaceKeypoints (some ⟨some raw⟩) = some m'
        ∧ ∀ (i : ℕ) (k : Keypoint) (r : RawKeypoint),
            m.faceKeypoints[i]? = some k → raw[i]? = some r →
            m'.faceKeypoints[i]? = some (k.copyRawKeypoint r)
            ∧ (k.copyRawKeypoint r).confidence = r.score.getD 1) := by
  have hraw : raw.isEmpty = false := by
    cases raw with
    | nil => exact absurd rfl hne
    | cons a as => rfl
  constructor
  · intro hlen
    have hst : m.bodyKeypoints.isEmpty = false := by
      cases hb : m.bodyKeypoints with
      | nil =>
        rw [hb] at hlen
        cases raw with
        | nil => exact absurd rfl hne
        | cons a as => simp at hlen
      | cons a as => rfl
    refine ⟨{ m with bodyKeypoints := copyInto m.bodyKeypoints raw }, ?_, ?_⟩
    · simp [Mesh.updateBodyKeypoints, hraw, hst, hlen]
    · intro i k r hk hr
      exact ⟨copyInto_getElem? m.bodyKeypoints raw i k r hk hr, rfl⟩
  · intro hlen
    have hst : m.faceKeypoints.isEmpty = false := by
      cases hb : m.faceKeypoints with
      | nil =>
        rw [hb] at hlen
        cases raw with
        | nil => exact absurd rfl hne
        | cons a as => simp at hlen
      | cons a as => rfl
    refine ⟨{ m with faceKeypoints := copyInto m.faceKeypoints raw }, ?_, ?_⟩
    · simp [Mesh.updateFaceKeypoints, hraw, hst, hlen]
    · intro i k r hk hr
      exact ⟨copyInto_getElem? m.faceKeypoints raw i k r hk hr, rfl⟩

/-- C9 witness: a scored body entry is stored with confidence exactly its
score 2; an unscored face entry is stored with confidence exactly 1. -/
theorem confidence_passthrough_amended_witness :
    ((kpAt "nose" 1 1 0).copyRawKeypoint rawScored).confidence = 2
    ∧ ((kpAt "brow" 1 1 0).copyRawKeypoint rawUnscored).confidence = 1 := by
  obtain ⟨m1, -, ha⟩ :=
    (confidence_passthrough_amended M9 [rawScored] (by decide)).1 (by decide)
  obtain ⟨m2, -, hb⟩ :=
    (confidence_passthrough_amended M9 [rawUnscored] (by decide)).2 (by decide)
  exact ⟨((ha 0 (kpAt "nose" 1 1 0) rawScored (by decide) (by decide)).2).trans (by decide),
    ((hb 0 (kpAt "brow" 1 1 0) rawUnscored (by decide) (by decide)).2).trans (by decide)⟩

/-! Support lemmas for the offsets variant. -/

theorem offsets_find_set_choker (m : Offsets.Mesh) (k : Keypoint) (l : String) :
    ({ m with chokerKeypoint := k } : Offsets.Mesh).findKeypointByLabel l
      = m.findKeypointByLabel l := rfl

theorem offsets_find_set_necklace (m : Offsets.Mesh) (k : Keypoint) (l : String) :
    ({ m with necklaceKeypoint := k } : Offsets.Mesh).findKeypointByLabel l
      = m.findKeypointByLabel l := rfl

theorem offsets_find_setNecklaceOffsets (m : Offsets.Mesh) (a b c : ℚ) (l : String) :
    (m.setNecklaceOffsets a b c).findKeypointByLabel l = m.findKeypointByLabel l := rfl

/-- Characterization of the offsets variant's `getNecklaceKeypoint` when
both shoulders resolve. -/
theorem offsets_getNecklaceKeypoint_eq (m : Offsets.Mesh) (ls rs : Keypoint)
    (hl : m.findKeypointByLabel "left_shoulder" = some ls)
    (hr : m.findKeypointByLabel "right_shoulder" = some rs) :
    m.getNecklaceKeypoint =
      (let nk := ((m.necklaceKeypoint.setConfidence 0).setScale (|ls.x - rs.x| / 200)
          (|ls.x - rs.x| / 200) 1).setRotationZ ((rs.y - ls.y) / 5)
       let nk := ((nk.setConfidence 1).setPosition
         ((ls.x + rs.x) / 2 + m.necklaceOffsets.1)
         ((ls.y + rs.y) / 2 + m.necklaceOffsets.2.1)
         ((ls.z + rs.z) / 2 + m.necklaceOffsets.2.2)).setColour "red"
       ({ m with necklaceKeypoint := nk }, nk)) := by
  unfold Offsets.Mesh.getNecklaceKeypoint
  simp only [offsets_find_set_necklace, hl, hr]

/-- Characterization of the offsets variant's `getChokerKeypoint` when the
nose and both shoulders resolve: the necklace anchor is recomputed (with
its offsets) and the choker is derived from it (with its own offsets). -/
theorem offsets_getChokerKeypoint_eq (m : Offsets.Mesh) (nose ls rs : Keypoint)
    (hn : m.findKeypointByLabel "nose" = some nose)
    (hl : m.findKeypointByLabel "left_shoulder" = some ls)
    (hr : m.findKeypointByLabel "right_shoulder" = some rs) :
    m.getChokerKeypoint =
      (let nk := ((m.necklaceKeypoint.setConfidence 0).setScale (|ls.x - rs.x| / 200)
          (|ls.x - rs.x| / 200) 1).setRotationZ ((rs.y - ls.y) / 5)
       let nk := ((nk.setConfidence 1).setPosition
         ((ls.x + rs.x) / 2 + m.necklaceOffsets.1)
         ((ls.y + rs.y) / 2 + m.necklaceOffsets.2.1)
         ((ls.z + rs.z) / 2 + m.necklaceOffsets.2.2)).setColour "red"
       let ck := (((m.chokerKeypoint.setConfidence 0).setConfidence 1).setPosition
         (nk.x + (nose.x - nk.x) / 3 + m.chokerOffsets.1)
         (nk.y + (nose.y - nk.y) / 3 + m.chokerOffsets.2.1)
         (nk.z + (nose.z + nk.z) / 2 + m.chokerOffsets.2.2)).setColour "blue"
       ({ m with chokerKeypoint := ck, necklaceKeypoint := nk }, ck)) := by
  unfold Offsets.Mesh.getChokerKeypoint
  simp only [offsets_find_set_choker, hn]
  rw [offsets_getNecklaceKeypoint_eq
    ({ m with chokerKeypoint := m.chokerKeypoint.setConfidence 0 } : Offsets.Mesh) ls rs
    (by rw [offsets_find_set_choker]; exact hl)
    (by rw [offsets_find_set_choker]; exact hr)]

/-- The nose keypoint of the C1 counterexample state: its depth is 30. -/
def noseC : Keypoint := kpAt "nose" 100 50 30

/-- The left shoulder of the C1 example states. -/
def lsC : Keypoint := kpAt "left_shoulder" 60 80 0

/-- The right shoulder of the C1 example states. -/
def rsC : Keypoint := kpAt "right_shoulder" 140 80 0

/-- A Mesh state of the offsets variant in which nose and both shoulders
resolve, all offsets are zero and the nose depth is 30. -/
def M1c : Offsets.Mesh :=
  { Offsets.Mesh.new with bodyKeypoints := [lsC, rsC, noseC] }

/-- C1 counterexample: in `M1c` (all offsets zero, nose depth 30) the choker
z coordinate is 15 = necklace.z + (nose.z + necklace.z) / 2, not
necklace.z + (nose.z − necklace.z) / 3 = 10 as the componentwise claim
requires. -/
theorem choker_z_claim_false_at_nonzero_depth :
    M1c.findKeypointByLabel "nose" = some noseC
    ∧ M1c.findKeypointByLabel "left_shoulder" = some lsC
    ∧ M1c.findKeypointByLabel "right_shoulder" = some rsC
    ∧ M1c.chokerOffsets = (0, 0, 0) ∧ M1c.necklaceOffsets = (0, 0, 0)
    ∧ (M1c.getChokerKeypoint).2.z = 15
    ∧ ¬ ((M1c.getChokerKeypoint).2.z
        = (lsC.z + rsC.z) / 2 + (noseC.z - (lsC.z + rsC.z) / 2) / 3) := by
  have h := offsets_getChokerKeypoint_eq M1c noseC lsC rsC (by decide) (by decide) (by decide)
  have hz : (M1c.getChokerKeypoint).2.z = 15 := by
    rw [h]
    norm_num [noseC, lsC, rsC, M1c, Offsets.Mesh.new, kpAt, mkKeypoint,
      Keypoint.setConfidence, Keypoint.setPosition, Keypoint.setColour, Keypoint.setScale,
      Keypoint.setRotationZ, Keypoint.setX, Keypoint.setY, Keypoint.setZ]
  refine ⟨by decide, by decide, by decide, by decide, by decide, hz, ?_⟩
  rw [hz]
  norm_num [noseC, lsC, rsC, kpAt, mkKeypoint]

/-- C1 amended: with nose and both shoulders resolving, the choker's x and
y are necklace + (nose − necklace)/3 plus the choker offset, where the
necklace coordinate already includes the necklace offset; its z is
necklace.z + (nose.z + necklace.z)/2 plus the choker z offset (not the
componentwise /3 formula); the confidence is 1 and the persistent anchor
is returned. On the example state (z all zero) this yields (100, 70, 0). -/
theorem choker_position_amended (m : Offsets.Mesh) (nose ls rs : Keypoint)
    (hn : m.findKeypointByLabel "nose" = some nose)
    (hl : m.findKeypointByLabel "left_shoulder" = some ls)
    (hr : m.findKeypointByLabel "right_shoulder" = some rs) :
    ((m.getChokerKeypoint).2.x
      = ((ls.x + rs.x) / 2 + m.necklaceOffsets.1)
        + (nose.x - ((ls.x + rs.x) / 2 + m.necklaceOffsets.1)) / 3 + m.chokerOffsets.1)
    ∧ ((m.getChokerKeypoint).2.y
      = ((ls.y + rs.y) / 2 + m.necklaceOffsets.2.1)
        + (nose.y - ((ls.y + rs.y) / 2 + m.necklaceOffsets.2.1)) / 3 + m.chokerOffsets.2.1)
    ∧ ((m.getChokerKeypoint).2.z
      = ((ls.z + rs.z) / 2 + m.necklaceOffsets.2.2)
        + (nose.z + ((ls.z + rs.z) / 2 + m.necklaceOffsets.2.2)) / 2 + m.chokerOffsets.2.2)
    ∧ (m.getChokerKeypoint).2.confidence = 1
    ∧ (m.getChokerKeypoint).2 = (m.getChokerKeypoint).1.chokerKeypoint := by
  rw [offsets_getChokerKeypoint_eq m nose ls rs hn hl hr]
  exact ⟨rfl, rfl, rfl, rfl, rfl⟩

/-- The example state of the spec: shoulders (60,80,0) and (140,80,0), nose
(100,50,0), all offsets zero. -/
def M1 : Offsets.Mesh :=
  { Offsets.Mesh.new with
      bodyKeypoints := [lsC, rsC, kpAt "nose" 100 50 0] }

/-- C1 witness: on the spec's example state the choker evaluates to
(100, 70, 0) with confidence 1. -/
theorem choker_position_amended_witness :
    (M1.getChokerKeypoint).2.x = 100
    ∧ (M1.getChokerKeypoint).2.y = 70
    ∧ (M1.getChokerKeypoint).2.z = 0
    ∧ (M1.getChokerKeypoint).2.confidence = 1 := by
  have h := choker_position_amended M1 (kpAt "nose" 100 50 0) lsC rsC
    (by decide) (by decide) (by decide)
  refine ⟨h.1.trans ?_, h.2.1.trans ?_, h.2.2.1.trans ?_, h.2.2.2.1⟩ <;>
    norm_num [lsC, rsC, kpAt, mkKeypoint, M1, Offsets.Mesh.new]

/-- C8: setting the necklace offsets to (5, −5, 0) and reading the necklace
anchor shifts its position by exactly (5, −5, 0) relative to the
zero-offset read of the same state, with rotation and scale identical. -/
theorem necklace_offset_additivity (m : Offsets.Mesh) (ls rs : Keypoint)
    (hl : m.findKeypointByLabel "left_shoulder" = some ls)
    (hr : m.findKeypointByLabel "right_shoulder" = some rs) :
    (((m.setNecklaceOffsets 5 (-5) 0).getNecklaceKeypoint).2.x
      = ((m.setNecklaceOffsets 0 0 0).getNecklaceKeypoint).2.x + 5)
    ∧ (((m.setNecklaceOffsets 5 (-5) 0).getNecklaceKeypoint).2.y
      = ((m.setNecklaceOffsets 0 0 0).getNecklaceKeypoint).2.y - 5)
    ∧ (((m.setNecklaceOffsets 5 (-5) 0).getNecklaceKeypoint).2.z
      = ((m.setNecklaceOffsets 0 0 0).getNecklaceKeypoint).2.z)
    ∧ (((m.setNecklaceOffsets 5 (-5) 0).getNecklaceKeypoint).2.rotX
      = ((m.setNecklaceOffsets 0 0 0).getNecklaceKeypoint).2.rotX)
    ∧ (((m.setNecklaceOffsets 5 (-5) 0).getNecklaceKeypoint).2.rotY
      = ((m.setNecklaceOffsets 0 0 0).getNecklaceKeypoint).2.rotY)
    ∧ (((m.setNecklaceOffsets 5 (-5) 0).getNecklaceKeypoint).2.rotZ
      = ((m.setNecklaceOffsets 0 0 0).getNecklaceKeypoint).2.rotZ)
    ∧ (((m.setNecklaceOffsets 5 (-5) 0).getNecklaceKeypoint).2.scaleX
      = ((m.setNecklaceOffsets 0 0 0).getNecklaceKeypoint).2.scaleX)
    ∧ (((m.setNecklaceOffsets 5 (-5) 0).getNecklaceKeypoint).2.scaleY
      = ((m.setNecklaceOffsets 0 0 0).getNecklaceKeypoint).2.scaleY)
    ∧ (((m.setNecklaceOffsets 5 (-5) 0).getNecklaceKeypoint).2.scaleZ
      = ((m.setNecklaceOffsets 0 0 0).getNecklaceKeypoint).2.scaleZ) := by
  rw [offsets_getNecklaceKeypoint_eq (m.setNecklaceOffsets 5 (-5) 0) ls rs
      (by rw [offsets_find_setNecklaceOffsets]; exact hl)
      (by rw [offsets_find_setNecklaceOffsets]; exact hr),
    offsets_getNecklaceKeypoint_eq (m.setNecklaceOffsets 0 0 0) ls rs
      (by rw [offsets_find_setNecklaceOffsets]; exact hl)
      (by rw [offsets_find_setNecklaceOffsets]; exact hr)]
  refine ⟨?_, ?_, ?_, rfl, rfl, rfl, rfl, rfl, rfl⟩ <;>
    simp only [Offsets.Mesh.setNecklaceOffsets, Keypoint.setConfidence, Keypoint.setScale,
      Keypoint.setRotationZ, Keypoint.setPosition, Keypoint.setColour, Keypoint.setX,
      Keypoint.setY, Keypoint.setZ] <;>
    ring

/-- C8 witness: the offset shift, rotation and scale preservation, applied
on the example state `M1`. -/
theorem necklace_offset_additivity_witness :
    (((M1.setNecklaceOffsets 5 (-5) 0).getNecklaceKeypoint).2.x
      = ((M1.setNecklaceOffsets 0 0 0).getNecklaceKeypoint).2.x + 5)
    ∧ (((M1.setNecklaceOffsets 5 (-5) 0).getNecklaceKeypoint).2.y
      = ((M1.setNecklaceOffsets 0 0 0).getNecklaceKeypoint).2.y - 5)
    ∧ (((M1.setNecklaceOffsets 5 (-5) 0).getNecklaceKeypoint).2.rotZ
      = ((M1.setNecklaceOffsets 0 0 0).getNecklaceKeypoint).2.rotZ)
    ∧ (((M1.setNecklaceOffsets 5 (-5) 0).getNecklaceKeypoint).2.scaleX
      = ((M1.setNecklaceOffsets 0 0 0).getNecklaceKeypoint).2.scaleX) := by
  have h := necklace_offset_additivity M1 lsC rsC (by decide) (by decide)
  exact ⟨h.1, h.2.1, h.2.2.2.2.2.1, h.2.2.2.2.2.2.1⟩

/-- A cache hit: when `this.labels` is already a non-empty list, the call
returns it and changes nothing. -/
theorem offsets_getKeypointLabels_cached (m : Offsets.Mesh) (l : List (Option String))
    (hm : m.labels = some l) (hne : l ≠ []) :
    m.getKeypointLabels = (m, l) := by
  unfold Offsets.Mesh.getKeypointLabels
  rw [hm]
  simp only [if_pos (List.length_pos.mpr hne)]

/-- After any call, the cache holds exactly the returned list. -/
theorem offsets_getKeypointLabels_caches (m : Offsets.Mesh) :
    ((m.getKeypointLabels).1).labels = some ((m.getKeypointLabels).2) := by
  unfold Offsets.Mesh.getKeypointLabels
  cases hm : m.labels with
  | none => rfl
  | some l =>
    by_cases hl : 0 < l.length
    · simp only [if_pos hl]
      exact hm
    · simp only [if_neg hl]

/-- No ingestion call writes the label cache. -/
theorem offsets_applyIngestion_labels (m m' : Offsets.Mesh) (i : Offsets.Ingestion)
    (h : m.applyIngestion i = some m') : m'.labels = m.labels := by
  cases i with
  | body raw =>
    cases raw with
    | none =>
      simp only [Offsets.Mesh.applyIngestion, Offsets.Mesh.updateBodyKeypoints,
        Option.some.injEq] at h
      subst h; rfl
    | some f =>
      cases hf : f.keypoints with
      | none =>
        simp only [Offsets.Mesh.applyIngestion, Offsets.Mesh.updateBodyKeypoints, hf,
          Option.some.injEq] at h
        subst h; rfl
      | some rawl =>
        simp only [Offsets.Mesh.applyIngestion, Offsets.Mesh.updateBodyKeypoints, hf] at h
        repeat' split at h
        all_goals first
        | exact Option.noConfusion h
        | (simp only [Option.some.injEq] at h
           subst h
           rfl)
  | face raw =>
    cases raw with
    | none =>
      simp only [Offsets.Mesh.applyIngestion, Offsets.Mesh.updateFaceKeypoints,
        Option.some.injEq] at h
      subst h; rfl
    | some f =>
      cases hf : f.keypoints with
      | none =>
        simp only [Offsets.Mesh.applyIngestion, Offsets.Mesh.updateFaceKeypoints, hf,
          Option.some.injEq] at h
        subst h; rfl
      | some rawl =>
        simp only [Offsets.Mesh.applyIngestion, Offsets.Mesh.updateFaceKeypoints, hf] at h
        repeat' split at h
        all_goals first
        | exact Option.noConfusion h
        | (simp only [Option.some.injEq] at h
           subst h
           rfl)
  | hand raw =>
    simp only [Offsets.Mesh.applyIngestion, Offsets.Mesh.updateHandKeypoints] at h
    split at h
    · simp only [Option.some.injEq] at h
      subst h; rfl
    · rw [Option.map_eq_some'] at h
      obtain ⟨ks, -, hk⟩ := h
      rw [← hk]

/-- No sequence of ingestion calls writes the label cache. -/
theorem offsets_applyAll_labels (m : Offsets.Mesh) (ops : List Offsets.Ingestion)
    (m' : Offsets.Mesh) (h : m.applyAll ops = some m') : m'.labels = m.labels := by
  induction ops generalizing m with
  | nil =>
    unfold Offsets.Mesh.applyAll at h
    cases h; rfl
  | cons i rest ih =>
    unfold Offsets.Mesh.applyAll at h
    cases hi : m.applyIngestion i with
    | none => rw [hi] at h; cases h
    | some m2 =>
      rw [hi] at h
      exact (ih m2 h).trans (offsets_applyIngestion_labels m m2 i hi)

/-- C10: once `getKeypointLabels()` has returned a non-empty list, every
later call on the Mesh resulting from any successful sequence of
ingestions returns that same cached list unchanged — the cache is never
invalidated, even when ingestions replace, add or relabel stored
keypoints. -/
theorem keypoint_labels_cache_stable (m m₁ m₂ : Offsets.Mesh) (l : List (Option String))
    (ops : List Offsets.Ingestion)
    (h1 : m.getKeypointLabels = (m₁, l)) (h2 : l ≠ [])
    (h3 : m₁.applyAll ops = some m₂) :
    m₂.getKeypointLabels = (m₂, l) := by
  have hm1 : m₁.labels = some l := by
    have hc := offsets_getKeypointLabels_caches m
    rw [h1] at hc
    exact hc
  have hm2 : m₂.labels = some l := by
    rw [offsets_applyAll_labels m₁ ops m₂ h3]
    exact hm1
  exact offsets_getKeypointLabels_cached m₂ l hm2 h2

/-- The post-first-call state of the C10 witness: the fresh Mesh with the
four anchor labels cached. -/
def M10a : Offsets.Mesh :=
  { Offsets.Mesh.new with
      labels := some [some "choker", some "left_earlobe", some "right_earlobe", some "necklace"] }

/-- The face frame ingested between the two calls of the C10 witness. -/
def rawNoseFrame : RawFrame := ⟨some [⟨some 1, some 2, some 3, none, some "nose"⟩]⟩

/-- C10 witness: the first call on a fresh Mesh returns the four anchor
labels; after ingesting a face frame that stores a newly labelled "nose"
keypoint, the second call still returns the same four labels. -/
theorem keypoint_labels_cache_stable_witness :
    ∃ m₂, M10a.applyAll [Offsets.Ingestion.face (some rawNoseFrame)] = some m₂
      ∧ m₂.getKeypointLabels
          = (m₂, [some "choker", some "left_earlobe", some "right_earlobe", some "necklace"])
      ∧ m₂.faceKeypoints.map (fun k => k.label) = [some "nose"] := by
  obtain ⟨m₂, hm₂⟩ := Option.isSome_iff_exists.mp
    (show (M10a.applyAll [Offsets.Ingestion.face (some rawNoseFrame)]).isSome = true by decide)
  have hmap : (M10a.applyAll [Offsets.Ingestion.face (some rawNoseFrame)]).map
      (fun mm => mm.faceKeypoints.map fun k => k.label) = some [some "nose"] := by decide
  rw [hm₂, Option.map_some'] at hmap
  exact ⟨m₂, hm₂,
    keypoint_labels_cache_stable Offsets.Mesh.new M10a m₂
      [some "choker", some "left_earlobe", some "right_earlobe", some "necklace"]
      [Offsets.Ingestion.face (some rawNoseFrame)] (by decide) (by decide) hm₂,
    Option.some.inj hmap⟩

end Jellron
